import Mathlib

/-!
Shallow embedding of the payment verification and subscription activation
engine of the Russian-learning Telegram bot (source: `src/messageQueue.js`,
`TelegramBotHandler.handleSubscribe` and `TelegramBotHandler.handleCheckPayment`,
with configuration from the config module and `Database.createSubscription`).

JavaScript values are modelled as follows: an optional / possibly-absent field
becomes `Option`; a JS string tested for truthiness is truthy exactly when it
is present and nonempty; `forward_ton_amount` is only ever tested for
truthiness, so it is modelled as a `Nat` where `0` stands for a missing or
zero (falsy) value; `parseInt` of the jetton amount string is modelled as
`Option Nat`, `none` standing for a missing field or a non-numeric string
(whose `parseInt` is `NaN`, which fails every `>=` comparison).  The `source`
and `destination` fields of an outbound message are only ever tested for
presence, so they are modelled as `Bool`.
-/

/-- JS `String.prototype.includes`: `strIncludes s sub` is `s.includes(sub)`. -/
def strIncludes (s sub : String) : Bool :=
  decide (sub.toList <:+: s.toList)

/-- The decoded `jetton_transfer` body of an outbound message
(fields read at `messageQueue.js` lines 724-740). -/
structure JettonTransfer where
  jetton_master_address : String
  /-- `parseInt(body.jetton_transfer.amount)`: `none` models a missing or
  non-numeric amount string (`NaN`). -/
  amount : Option Nat
  /-- only tested for truthiness; `0` models missing-or-zero (falsy). -/
  forward_ton_amount : Nat
  forward_payload : Option String
  deriving DecidableEq, Repr

/-- A message's `decoded_body`: a plain `text` comment and/or a
`jetton_transfer` record, either possibly absent. -/
structure DecodedBody where
  text : Option String
  jetton_transfer : Option JettonTransfer
  deriving DecidableEq, Repr

/-- An entry of `tx.out_msgs`.  `source` and `destination` record only the
presence (JS truthiness) of those fields, which is all line 720 tests. -/
structure OutMsg where
  source : Bool
  destination : Bool
  decoded_body : Option DecodedBody
  deriving DecidableEq, Repr

/-- A transaction returned by the ledger API: an optional inbound message
(whose `decoded_body` may be absent) and a list of outbound messages. -/
structure Transaction where
  in_msg : Option DecodedBody
  out_msgs : List OutMsg
  deriving DecidableEq, Repr

/-- A pending payment intent as stored by `handleSubscribe`
(`messageQueue.js` lines 448-454).  The floating-point `tonAmount` field is
never read by the matcher and is not modelled. -/
structure PaymentData where
  reference : String
  amount : Nat
  usdtAmount : Nat
  timestamp : Nat
  deriving DecidableEq, Repr

/-- Configuration consumed by the engine (config module).
`expectedUsdtMicroAmount` is the value `Math.floor(USDT_AMOUNT *
TON_CONVERSIONS.MICRO_USDT_TO_USDT)` computed at line 728. -/
structure Config where
  USDT_CONTRACT_ADDRESS : String
  expectedUsdtMicroAmount : Nat
  MAX_ATTEMPTS : Nat
  INITIAL_DELAY_MS : Nat
  RETRY_DELAY_MS : Nat
  SUBSCRIPTION_DAYS : Nat
  deriving DecidableEq, Repr

/-- The default configuration values from the config module:
`MAX_ATTEMPTS = 3`, delays of 3000 ms, `SUBSCRIPTION_DAYS = 30`,
`USDT_AMOUNT = 1.0` so the expected micro-USDT amount is 1000000. -/
def defaultConfig : Config where
  USDT_CONTRACT_ADDRESS := "EQCxE6mUtQJKFnGfaROTKOt1lZbDiiX1kCixRv7Nw2Id_sDs"
  expectedUsdtMicroAmount := 1000000
  MAX_ATTEMPTS := 3
  INITIAL_DELAY_MS := 3000
  RETRY_DELAY_MS := 3000
  SUBSCRIPTION_DAYS := 30

/-- Native-comment check on a transaction's inbound message
(`messageQueue.js` lines 679-688): the chain
`tx.in_msg && tx.in_msg.decoded_body && tx.in_msg.decoded_body.text` requires
every layer present and the text truthy (nonempty), then the comment must
equal the reference or contain it as a substring. -/
def inMsgTextMatch (ref : String) (tx : Transaction) : Bool :=
  match tx.in_msg with
  | none => false
  | some db =>
    match db.text with
    | none => false
    | some t => t != "" && (t == ref || strIncludes t ref)

/-- Native-comment check on one outbound message
(`messageQueue.js` lines 693-702). -/
def outMsgTextMatch (ref : String) (m : OutMsg) : Bool :=
  match m.decoded_body with
  | none => false
  | some db =>
    match db.text with
    | none => false
    | some t => t != "" && (t == ref || strIncludes t ref)

/-- Native (plain TON transfer) match of one transaction against a reference:
inbound comment or any outbound message comment (lines 677-707).  No amount
is consulted on this path. -/
def txNativeMatch (ref : String) (tx : Transaction) : Bool :=
  inMsgTextMatch ref tx || tx.out_msgs.any (outMsgTextMatch ref)

/-- Jetton (token-transfer) check on one outbound message
(`messageQueue.js` lines 718-746): the message must have `source` and
`destination` present and a `decoded_body` whose `jetton_transfer` names the
configured USDT contract; then the parsed amount must be at least the
expected amount, `forward_ton_amount` must be truthy, and the
`forward_payload` must be truthy and contain or equal the reference. -/
def jettonTransferMatch (cfg : Config) (ref : String) (m : OutMsg) : Bool :=
  m.source && m.destination &&
    match m.decoded_body with
    | none => false
    | some body =>
      match body.jetton_transfer with
      | none => false
      | some jt =>
        jt.jetton_master_address == cfg.USDT_CONTRACT_ADDRESS &&
          (match jt.amount with
           | none => false
           | some receivedAmount => cfg.expectedUsdtMicroAmount ≤ receivedAmount) &&
          jt.forward_ton_amount != 0 &&
          (match jt.forward_payload with
           | none => false
           | some payload =>
             payload != "" && (strIncludes payload ref || payload == ref))

/-- Jetton match of one transaction: any outbound message qualifies
(lines 715-753). -/
def txJettonMatch (cfg : Config) (ref : String) (tx : Transaction) : Bool :=
  tx.out_msgs.any (jettonTransferMatch cfg ref)

/-- One pending payment matches the fetched batch if some transaction matches
natively, or — only when no native match exists for this payment — some
transaction carries a qualifying jetton transfer (lines 673-760; the jetton
scan runs under `if (!paymentFound)`). -/
def paymentMatches (cfg : Config) (transactions : List Transaction)
    (pd : PaymentData) : Bool :=
  transactions.any (txNativeMatch pd.reference) ||
    transactions.any (txJettonMatch cfg pd.reference)

/-- The matcher over the whole pending list: payments are scanned in reverse
order (most recent first, line 672) and the first match wins. -/
def findPayment (cfg : Config) (transactions : List Transaction)
    (payments : List PaymentData) : Option PaymentData :=
  payments.reverse.find? (paymentMatches cfg transactions)

/-! ## Mutable bot state

`TelegramBotHandler` keeps `pendingPayments : Map<string, PaymentData[]>` and
`checkingPayments : Set<string>` (constructor, lines 167-168).  The JS `Map`
and `Set` are modelled as insertion-ordered association lists / lists without
duplicates, with `get` / `set` / `delete` / `has` / `add` translated below. -/

/-- JS `Map.prototype.get` on the pending-payments map. -/
def mapGet (m : List (String × List PaymentData)) (k : String) :
    Option (List PaymentData) :=
  (m.find? (fun e => e.1 == k)).map (fun e => e.2)

/-- JS `Map.prototype.set`: replace the value in place when the key exists,
otherwise append a new entry. -/
def mapSet (m : List (String × List PaymentData)) (k : String)
    (v : List PaymentData) : List (String × List PaymentData) :=
  if m.any (fun e => e.1 == k) then
    m.map (fun e => if e.1 == k then (k, v) else e)
  else
    m ++ [(k, v)]

/-- JS `Map.prototype.delete`. -/
def mapDelete (m : List (String × List PaymentData)) (k : String) :
    List (String × List PaymentData) :=
  m.filter (fun e => e.1 != k)

/-- JS `Set.prototype.has`. -/
def setHas (s : List String) (k : String) : Bool :=
  s.contains k

/-- JS `Set.prototype.add` (no duplicates). -/
def setAdd (s : List String) (k : String) : List String :=
  if s.contains k then s else s ++ [k]

/-- JS `Set.prototype.delete`. -/
def setDelete (s : List String) (k : String) : List String :=
  s.filter (fun e => e != k)

/-- The two keyed stores of `TelegramBotHandler` that the engine mutates. -/
structure BotState where
  pendingPayments : List (String × List PaymentData)
  checkingPayments : List String
  deriving DecidableEq, Repr

/-- The user-visible messages sent by `handleCheckPayment` (and the
immediate first lesson sent by `sendImmediateSentence`). -/
inductive Msg where
  /-- line 607: payment check already in progress -/
  | alreadyChecking
  /-- lines 620, 631: no pending payment found -/
  | noPending
  /-- line 638: checking your payment -/
  | checking
  /-- line 797: payment confirmed -/
  | success
  /-- line 806: the immediate first lesson (`sendImmediateSentence`) -/
  | lesson
  /-- line 811: payment not found after all attempts -/
  | notFound
  /-- line 782: verification temporarily unavailable -/
  | serviceUnavailable
  /-- lines 815-816: something went wrong (inner catch) -/
  | errorGeneric
  deriving DecidableEq, Repr

/-- Observable events of one `handleCheckPayment` invocation, in program
order: messages sent, `setTimeout` delays, the `database.createSubscription`
request, and the deletion of the user's pending payments. -/
inductive Event where
  | sent (m : Msg)
  | wait (ms : Nat)
  | createSub (userId reference : String) (days : Nat)
  | clearIntents (userId : String)
  deriving DecidableEq, Repr

/-- Terminal outcome of the retry loop of one verification run. -/
inductive Outcome where
  | Matched (pd : PaymentData)
  | NotFound
  | ServiceUnavailable
  deriving DecidableEq, Repr

/-- The retry loop of `handleCheckPayment` (lines 649-786), with the result
of each attempt's ledger fetch given as one list entry: `none` is a fetch
failure (the `apiError` catch), `some txs` a successful response.  The list
has one entry per attempt, so its last entry is the last attempt.  On a
failed fetch before the last attempt the loop waits `RETRY_DELAY_MS` and
continues (lines 777-779); a failed fetch on the last attempt sends the
unavailability message and returns (lines 781-783); a successful fetch runs
the matcher, terminating on a match and otherwise waiting and continuing
(lines 763-771), with exhaustion yielding `NotFound`. -/
def attemptLoop (cfg : Config) (payments : List PaymentData) :
    List (Option (List Transaction)) → List Event × Outcome
  | [] => ([], .NotFound)
  | [fetchResult] =>
    match fetchResult with
    | none => ([.sent .serviceUnavailable], .ServiceUnavailable)
    | some txs =>
      match findPayment cfg txs payments with
      | some pd => ([], .Matched pd)
      | none => ([], .NotFound)
  | fetchResult :: rest =>
    match fetchResult with
    | none =>
      ((Event.wait cfg.RETRY_DELAY_MS) :: (attemptLoop cfg payments rest).1,
        (attemptLoop cfg payments rest).2)
    | some txs =>
      match findPayment cfg txs payments with
      | some pd => ([], .Matched pd)
      | none =>
        ((Event.wait cfg.RETRY_DELAY_MS) :: (attemptLoop cfg payments rest).1,
          (attemptLoop cfg payments rest).2)

/-- The guard key `checking_<userId>` (line 605). -/
def checkKeyOf (userId : String) : String :=
  "checking_" ++ userId

/-- `TelegramBotHandler.handleCheckPayment` (lines 603-830).

The two effect parameters of the embedding: `fetches` gives the result of the
ledger fetch of each attempt; `dbFails` injects a failure (a rejected
promise) of the `database.createSubscription` call at line 791, which the
inner `catch` (lines 814-816) converts into the generic error message while
the `finally` (lines 817-820) still releases the guard — the registry is then
left untouched because line 794 was never reached.

Paths, in source order: the duplicate-check short circuit (lines 606-609);
guard acquisition (line 612); the two no-pending-payment rejections (lines
618-633), which release the guard explicitly; the checking message and
initial delay (lines 638-641); the retry loop; and the outcome handling
(lines 788-812), with the guard released by the `finally`. -/
def handleCheckPayment (cfg : Config) (userId : String)
    (fetches : List (Option (List Transaction))) (dbFails : Bool)
    (st : BotState) : List Event × BotState :=
  let checkKey := checkKeyOf userId
  if setHas st.checkingPayments checkKey then
    ([.sent .alreadyChecking], st)
  else
    let guardHeld := setAdd st.checkingPayments checkKey
    match mapGet st.pendingPayments userId with
    | none =>
      ([.sent .noPending],
        ⟨st.pendingPayments, setDelete guardHeld checkKey⟩)
    | some paymentsToCheck =>
      if paymentsToCheck.isEmpty then
        ([.sent .noPending],
          ⟨st.pendingPayments, setDelete guardHeld checkKey⟩)
      else
        let pre : List Event := [.sent .checking, .wait cfg.INITIAL_DELAY_MS]
        let loop := attemptLoop cfg paymentsToCheck fetches
        match loop.2 with
        | .Matched pd =>
          if dbFails then
            (pre ++ loop.1 ++ [.sent .errorGeneric],
              ⟨st.pendingPayments, setDelete guardHeld checkKey⟩)
          else
            (pre ++ loop.1 ++
              [.createSub userId pd.reference cfg.SUBSCRIPTION_DAYS,
                .clearIntents userId, .sent .success, .sent .lesson],
              ⟨mapDelete st.pendingPayments userId, setDelete guardHeld checkKey⟩)
        | .NotFound =>
          (pre ++ loop.1 ++ [.sent .notFound],
            ⟨st.pendingPayments, setDelete guardHeld checkKey⟩)
        | .ServiceUnavailable =>
          (pre ++ loop.1,
            ⟨st.pendingPayments, setDelete guardHeld checkKey⟩)

/-- The payment reference generated by `handleSubscribe` (line 426):
`russian-bot-<userId>-<Date.now()>`. -/
def mkPaymentReference (userId : String) (now : Nat) : String :=
  "russian-bot-" ++ userId ++ "-" ++ toString now

/-- The capacity-3 registry append of `handleSubscribe` (lines 457-458):
`existingPayments.push(newPayment)` followed by `.slice(-3)`, which keeps the
newest (at most) three entries in creation order. -/
def pushRecent (l : List PaymentData) (pd : PaymentData) : List PaymentData :=
  (l ++ [pd]).drop ((l ++ [pd]).length - 3)

/-- The registry mutation of `handleSubscribe` (lines 444-460): read the
user's existing pending payments (empty when absent), append the new one,
keep the last three, store back. -/
def recordNewPayment (st : BotState) (userId : String) (pd : PaymentData) :
    BotState :=
  let existingPayments := (mapGet st.pendingPayments userId).getD []
  { st with pendingPayments :=
      mapSet st.pendingPayments userId (pushRecent existingPayments pd) }

/-- The token-match rule exactly as the spec words it (three conditions:
contract address, amount threshold, payload contains-or-equals the
reference), used to compare the spec's sentence with the code's
`jettonTransferMatch`. -/
def specTokenMatch (cfg : Config) (ref : String) (jt : JettonTransfer) : Bool :=
  jt.jetton_master_address == cfg.USDT_CONTRACT_ADDRESS &&
    (match jt.amount with
     | none => false
     | some a => cfg.expectedUsdtMicroAmount ≤ a) &&
    (match jt.forward_payload with
     | none => false
     | some p => p == ref || strIncludes p ref)

/-- The outcome-notification messages of a run: exactly one of these ends a
verification run (`success`, `notFound`, `serviceUnavailable`, or the generic
error of the inner catch). -/
def isOutcomeNotification : Event → Bool
  | .sent .success => true
  | .sent .notFound => true
  | .sent .serviceUnavailable => true
  | .sent .errorGeneric => true
  | _ => false

/-- Recognises the onboarding (first-lesson) delivery event. -/
def isLessonDelivery : Event → Bool
  | .sent .lesson => true
  | _ => false

/-- The guard set after acquiring and releasing `checking_<userId>`. -/
def releasedGuard (st : BotState) (userId : String) : List String :=
  setDelete (setAdd st.checkingPayments (checkKeyOf userId)) (checkKeyOf userId)

/-- The two events preceding the retry loop: the single checking message
(line 638) and the initial silent delay (line 641). -/
def preEvents (cfg : Config) : List Event :=
  [Event.sent .checking, Event.wait cfg.INITIAL_DELAY_MS]

/-- Concrete fixtures for witnesses: a current and an older pending intent
for user `"7"`, a transaction whose inbound comment settles the current one,
and a bot state holding both intents with no check in flight. -/
def pdFix : PaymentData :=
  { reference := "russian-bot-7-1", amount := 400000000,
    usdtAmount := 1000000, timestamp := 1 }

/-- An older pending intent of the same user, with an unrelated reference. -/
def pdOldFix : PaymentData :=
  { reference := "russian-bot-7-0", amount := 400000000,
    usdtAmount := 1000000, timestamp := 0 }

/-- A fetched transaction whose inbound comment equals `pdFix`'s
reference. -/
def txFix : Transaction :=
  { in_msg := some { text := some "russian-bot-7-1",
                     jetton_transfer := none },
    out_msgs := [] }

/-- Bot state with both fixture intents pending for user `"7"` and an empty
in-flight set. -/
def stFix : BotState :=
  { pendingPayments := [("7", [pdOldFix, pdFix])], checkingPayments := [] }

/-! ## Helper lemmas -/

theorem attemptLoop_cons_none {cfg : Config} {p : List PaymentData}
    {rest : List (Option (List Transaction))} (h : rest ≠ []) :
    attemptLoop cfg p (none :: rest) =
      ((Event.wait cfg.RETRY_DELAY_MS) :: (attemptLoop cfg p rest).1,
        (attemptLoop cfg p rest).2) := by
  cases rest with
  | nil => exact absurd rfl h
  | cons a l => rfl

theorem attemptLoop_cons_found {cfg : Config} {p : List PaymentData}
    {txs : List Transaction} {pd : PaymentData}
    {rest : List (Option (List Transaction))}
    (hf : findPayment cfg txs p = some pd) :
    attemptLoop cfg p (some txs :: rest) = ([], .Matched pd) := by
  cases rest with
  | nil => simp [attemptLoop, hf]
  | cons a l => simp [attemptLoop, hf]

theorem attemptLoop_cons_unmatched {cfg : Config} {p : List PaymentData}
    {txs : List Transaction} {rest : List (Option (List Transaction))}
    (h : rest ≠ []) (hf : findPayment cfg txs p = none) :
    attemptLoop cfg p (some txs :: rest) =
      ((Event.wait cfg.RETRY_DELAY_MS) :: (attemptLoop cfg p rest).1,
        (attemptLoop cfg p rest).2) := by
  cases rest with
  | nil => exact absurd rfl h
  | cons a l => simp [attemptLoop, hf]

/-- Every event emitted inside the retry loop is a delay or the
service-unavailability message. -/
theorem attemptLoop_events_shape (cfg : Config) (p : List PaymentData) :
    ∀ fs, ∀ e ∈ (attemptLoop cfg p fs).1,
      (∃ ms, e = Event.wait ms) ∨ e = Event.sent .serviceUnavailable := by
  intro fs
  induction fs with
  | nil => simp [attemptLoop]
  | cons r rest ih =>
    cases rest with
    | nil =>
      cases r with
      | none => simp [attemptLoop]
      | some txs =>
        cases hf : findPayment cfg txs p with
        | none => simp [attemptLoop, hf]
        | some pd => simp [attemptLoop, hf]
    | cons r2 rest2 =>
      cases r with
      | none =>
        rw [attemptLoop_cons_none (by simp)]
        intro e he
        rcases List.mem_cons.mp he with h1 | h2
        · exact Or.inl ⟨cfg.RETRY_DELAY_MS, h1⟩
        · exact ih e h2
      | some txs =>
        cases hf : findPayment cfg txs p with
        | some pd => simp [attemptLoop_cons_found hf]
        | none =>
          rw [attemptLoop_cons_unmatched (by simp) hf]
          intro e he
          rcases List.mem_cons.mp he with h1 | h2
          · exact Or.inl ⟨cfg.RETRY_DELAY_MS, h1⟩
          · exact ih e h2

/-- The retry loop itself emits an outcome notification exactly when it ends
in `ServiceUnavailable` (the message of line 782), and then exactly that
one. -/
theorem attemptLoop_filter_outcome (cfg : Config) (p : List PaymentData) :
    ∀ fs, (attemptLoop cfg p fs).1.filter isOutcomeNotification =
      (if (attemptLoop cfg p fs).2 = .ServiceUnavailable
        then [Event.sent .serviceUnavailable] else []) := by
  intro fs
  induction fs with
  | nil => simp [attemptLoop, isOutcomeNotification]
  | cons r rest ih =>
    cases rest with
    | nil =>
      cases r with
      | none => simp [attemptLoop, isOutcomeNotification]
      | some txs =>
        cases hf : findPayment cfg txs p with
        | none => simp [attemptLoop, hf, isOutcomeNotification]
        | some pd => simp [attemptLoop, hf, isOutcomeNotification]
    | cons r2 rest2 =>
      cases r with
      | none =>
        rw [attemptLoop_cons_none (by simp)]
        simpa [isOutcomeNotification] using ih
      | some txs =>
        cases hf : findPayment cfg txs p with
        | some pd => simp [attemptLoop_cons_found hf, isOutcomeNotification]
        | none =>
          rw [attemptLoop_cons_unmatched (by simp) hf]
          simpa [isOutcomeNotification] using ih

/-- The retry loop never emits the lesson delivery. -/
theorem attemptLoop_no_lesson (cfg : Config) (p : List PaymentData)
    (fs : List (Option (List Transaction))) :
    (attemptLoop cfg p fs).1.filter isLessonDelivery = [] := by
  rw [List.filter_eq_nil_iff]
  intro e he
  rcases attemptLoop_events_shape cfg p fs e he with ⟨ms, rfl⟩ | rfl <;>
    simp [isLessonDelivery]

theorem drop_append_of_le {α : Type} :
    ∀ (n : Nat) (x y : List α), n ≤ x.length →
      (x ++ y).drop n = x.drop n ++ y := by
  intro n x
  induction x generalizing n with
  | nil =>
    intro y h
    have : n = 0 := Nat.le_zero.mp h
    subst this
    simp
  | cons a t ih =>
    intro y h
    cases n with
    | zero => simp
    | succ m =>
      simp only [List.cons_append, List.drop_succ_cons]
      exact ih m y (by simpa using h)

/-- Composition of the capacity cut: keeping the last three of a list whose
head part was already cut to its last three is the same as one cut. -/
theorem drop_sub3_append {α : Type} (x y : List α) :
    ((x.drop (x.length - 3)) ++ y).drop
        (((x.drop (x.length - 3)) ++ y).length - 3) =
      (x ++ y).drop ((x ++ y).length - 3) := by
  have hk : x.length - 3 ≤ x.length := Nat.sub_le _ _
  rw [← drop_append_of_le (x.length - 3) x y hk, List.drop_drop]
  congr 1
  simp only [List.length_append, List.length_drop]
  omega

theorem mem_beq_false_of_contains_false {s : List String} {k : String}
    (h : s.contains k = false) : ∀ a ∈ s, (a == k) = false := by
  induction s with
  | nil => simp
  | cons x t ih =>
    rw [List.contains_cons, Bool.or_eq_false_iff] at h
    intro a ha
    rcases List.mem_cons.mp ha with rfl | hmem
    · have : ¬(k = a) := by simpa using h.1
      simp [beq_eq_false_iff_ne]
      exact fun hc => this hc.symm
    · exact ih h.2 a hmem

/-- Releasing a freshly acquired guard key restores the guard set. -/
theorem setDelete_setAdd {s : List String} {k : String}
    (h : setHas s k = false) : setDelete (setAdd s k) k = s := by
  unfold setHas at h
  unfold setAdd setDelete
  rw [h]
  show List.filter _ (s ++ [k]) = s
  rw [List.filter_append]
  have h1 : List.filter (fun e => e != k) [k] = [] := by simp
  have h2 : List.filter (fun e => e != k) s = s := by
    rw [List.filter_eq_self]
    intro a ha
    simp [bne]
    intro hc
    have := mem_beq_false_of_contains_false h a ha
    rw [hc] at this
    simp at this
  rw [h1, h2, List.append_nil]

theorem mapGet_mapSet_self (m : List (String × List PaymentData))
    (k : String) (v : List PaymentData) : mapGet (mapSet m k v) k = some v := by
  unfold mapGet mapSet
  by_cases h : m.any (fun e => e.1 == k) = true
  · rw [if_pos h]
    induction m with
    | nil => simp at h
    | cons e t ih =>
      rw [List.map_cons]
      by_cases he : (e.1 == k) = true
      · rw [if_pos he, List.find?_cons_of_pos _ (by simp)]
        rfl
      · rw [if_neg he]
        have hstep :
            List.find? (fun e => e.1 == k)
                (e :: List.map (fun e => if (e.1 == k) = true then (k, v) else e) t) =
              List.find? (fun e => e.1 == k)
                (List.map (fun e => if (e.1 == k) = true then (k, v) else e) t) :=
          List.find?_cons_of_neg _ he
        rw [hstep]
        apply ih
        rw [List.any_cons, Bool.or_eq_true] at h
        rcases h with h1 | h2
        · exact absurd h1 he
        · exact h2
  · rw [if_neg h]
    have hnone : m.find? (fun e => e.1 == k) = none := by
      rw [List.find?_eq_none]
      intro x hx
      have := List.any_eq_false.mp (Bool.of_not_eq_true h) x hx
      simpa using this
    simp [List.find?_append, hnone]

theorem mapGet_mapDelete_self (m : List (String × List PaymentData))
    (k : String) : mapGet (mapDelete m k) k = none := by
  unfold mapGet mapDelete
  have : (m.filter (fun e => e.1 != k)).find? (fun e => e.1 == k) = none := by
    rw [List.find?_eq_none]
    intro x hx
    have := (List.mem_filter.mp hx).2
    simp only [bne] at this
    intro hc
    rw [hc] at this
    simp at this
  simp [this]

/-- Full characterization of the code's token-transfer match: beyond the
contract-address, amount and payload conditions, the message must carry
`source` and `destination`, the `forward_ton_amount` must be truthy
(nonzero), and the payload must be truthy (nonempty). -/
theorem jettonTransferMatch_eq_true_iff (cfg : Config) (ref : String)
    (m : OutMsg) :
    jettonTransferMatch cfg ref m = true ↔
      m.source = true ∧ m.destination = true ∧
      ∃ body, m.decoded_body = some body ∧
      ∃ jt, body.jetton_transfer = some jt ∧
        jt.jetton_master_address = cfg.USDT_CONTRACT_ADDRESS ∧
        (∃ a, jt.amount = some a ∧ cfg.expectedUsdtMicroAmount ≤ a) ∧
        jt.forward_ton_amount ≠ 0 ∧
        ∃ p, jt.forward_payload = some p ∧ p ≠ "" ∧
          (strIncludes p ref = true ∨ p = ref) := by
  obtain ⟨src, dst, db⟩ := m
  cases db with
  | none => simp [jettonTransferMatch]
  | some body =>
    obtain ⟨txt, jtq⟩ := body
    cases jtq with
    | none => simp [jettonTransferMatch]
    | some jt =>
      obtain ⟨addr, amt, fta, fp⟩ := jt
      cases amt <;> cases fp <;>
        simp [jettonTransferMatch, Bool.and_eq_true, decide_eq_true_eq,
          bne_iff_ne, beq_iff_eq, and_assoc]

/-- C1 (counterexample): a decoded token-transfer body that satisfies all
three of the claim's conditions — jetton master address equals the
configured contract, amount at least the expected amount, and forward
payload equal to the reference — is nevertheless not matched by the code,
because its `forward_ton_amount` is missing/zero (falsy), a fourth condition
line 735 imposes.  The body sits in an outbound message with `source` and
`destination` present, inside a fetched transaction, and the full matcher
still finds nothing. -/
theorem C1_counterexample :
    specTokenMatch defaultConfig "russian-bot-7-1"
        { jetton_master_address :=
            "EQCxE6mUtQJKFnGfaROTKOt1lZbDiiX1kCixRv7Nw2Id_sDs",
          amount := some 1000000,
          forward_ton_amount := 0,
          forward_payload := some "russian-bot-7-1" } = true ∧
    jettonTransferMatch defaultConfig "russian-bot-7-1"
        { source := true, destination := true,
          decoded_body := some
            { text := none,
              jetton_transfer := some
                { jetton_master_address :=
                    "EQCxE6mUtQJKFnGfaROTKOt1lZbDiiX1kCixRv7Nw2Id_sDs",
                  amount := some 1000000,
                  forward_ton_amount := 0,
                  forward_payload := some "russian-bot-7-1" } } } = false ∧
    findPayment defaultConfig
        [{ in_msg := none,
           out_msgs := [
             { source := true, destination := true,
               decoded_body := some
                 { text := none,
                   jetton_transfer := some
                     { jetton_master_address :=
                         "EQCxE6mUtQJKFnGfaROTKOt1lZbDiiX1kCixRv7Nw2Id_sDs",
                       amount := some 1000000,
                       forward_ton_amount := 0,
                       forward_payload := some "russian-bot-7-1" } } }] }]
        [{ reference := "russian-bot-7-1", amount := 400000000,
           usdtAmount := 1000000, timestamp := 0 }] = none := by
  refine ⟨by decide, by decide, by decide⟩

/-- C1 (amended): an outbound message's decoded token-transfer body
qualifies as a token match exactly when, in addition to the claim's three
conditions (configured contract address, amount at least the expected
amount, forward payload — necessarily nonempty — containing or equal to the
reference), the message has `source` and `destination` present and the
body's `forward_ton_amount` is present and nonzero. -/
theorem C1_token_match_characterization : ∀ (cfg : Config) (ref : String)
    (m : OutMsg),
    jettonTransferMatch cfg ref m = true ↔
      m.source = true ∧ m.destination = true ∧
      ∃ body, m.decoded_body = some body ∧
      ∃ jt, body.jetton_transfer = some jt ∧
        jt.jetton_master_address = cfg.USDT_CONTRACT_ADDRESS ∧
        (∃ a, jt.amount = some a ∧ cfg.expectedUsdtMicroAmount ≤ a) ∧
        jt.forward_ton_amount ≠ 0 ∧
        ∃ p, jt.forward_payload = some p ∧ p ≠ "" ∧
          (strIncludes p ref = true ∨ p = ref) :=
  jettonTransferMatch_eq_true_iff

/-- C10: the token-match path accepts an outbound message only when the
message has both `source` and `destination` present and its jetton-transfer
body carries a truthy (present and nonzero) `forward_ton_amount`. -/
theorem C10_token_requires_presence_and_forward_ton (cfg : Config)
    (ref : String) (m : OutMsg)
    (h : jettonTransferMatch cfg ref m = true) :
    m.source = true ∧ m.destination = true ∧
    ∃ body, m.decoded_body = some body ∧
    ∃ jt, body.jetton_transfer = some jt ∧ jt.forward_ton_amount ≠ 0 := by
  obtain ⟨hs, hd, body, hb, jt, hjt, _, _, hfta, _⟩ :=
    (jettonTransferMatch_eq_true_iff cfg ref m).mp h
  exact ⟨hs, hd, body, hb, jt, hjt, hfta⟩

/-- Witness for C10 at a concrete matching message. -/
theorem C10_witness :
    let m : OutMsg :=
      { source := true, destination := true,
        decoded_body := some
          { text := none,
            jetton_transfer := some
              { jetton_master_address :=
                  "EQCxE6mUtQJKFnGfaROTKOt1lZbDiiX1kCixRv7Nw2Id_sDs",
                amount := some 1000000,
                forward_ton_amount := 1,
                forward_payload := some "russian-bot-7-1" } } }
    m.source = true ∧ m.destination = true ∧
    ∃ body, m.decoded_body = some body ∧
    ∃ jt, body.jetton_transfer = some jt ∧ jt.forward_ton_amount ≠ 0 :=
  C10_token_requires_presence_and_forward_ton defaultConfig "russian-bot-7-1"
    _ (by decide)

/-- References generated by `handleSubscribe` are never empty. -/
theorem mkPaymentReference_ne_empty (u : String) (t : Nat) :
    mkPaymentReference u t ≠ "" := by
  intro h
  have hlen := congrArg String.length h
  have h12 : ("russian-bot-" : String).length = 12 := rfl
  simp [mkPaymentReference, String.length_append, h12] at hlen

/-- A comment that equals or contains a nonempty reference is itself
nonempty. -/
theorem comment_ne_empty_of_match {c ref : String}
    (hmatch : c = ref ∨ strIncludes c ref = true) (href : ref ≠ "") :
    c ≠ "" := by
  rcases hmatch with rfl | hinc
  · exact href
  · intro hc
    subst hc
    unfold strIncludes at hinc
    have : ref.toList <:+: ([] : List Char) := by
      simpa using of_decide_eq_true hinc
    have hnil : ref.toList = [] := by simpa using this
    exact href (String.ext hnil)

/-- C2: a transaction whose inbound comment, or any of whose outbound
messages' comments, equals a pending intent's reference or contains it as a
substring, makes the intent list match, with no amount condition on this
native path: the intent `pd` is arbitrary, so the conclusion holds for every
value of its `amount` and `usdtAmount` fields, and no transaction amount is
consulted.  The hypothesis that the reference was produced by
`handleSubscribe` (line 426) makes it nonempty, which the code's truthiness
test on the comment needs. -/
theorem C2_native_comment_match (cfg : Config) (txs : List Transaction)
    (payments : List PaymentData) (pd : PaymentData)
    (hmem : pd ∈ payments)
    (href : ∃ u ts, pd.reference = mkPaymentReference u ts)
    (tx : Transaction) (htx : tx ∈ txs) (c : String)
    (hc : (∃ db, tx.in_msg = some db ∧ db.text = some c) ∨
          (∃ m, m ∈ tx.out_msgs ∧ ∃ db, m.decoded_body = some db ∧
            db.text = some c))
    (hmatch : c = pd.reference ∨ strIncludes c pd.reference = true) :
    paymentMatches cfg txs pd = true ∧
    (findPayment cfg txs payments).isSome = true := by
  obtain ⟨u, ts, hrefeq⟩ := href
  have hrefne : pd.reference ≠ "" := by
    rw [hrefeq]; exact mkPaymentReference_ne_empty u ts
  have hcne : c ≠ "" := comment_ne_empty_of_match hmatch hrefne
  have htext : (c != "" && (c == pd.reference || strIncludes c pd.reference))
      = true := by
    rw [Bool.and_eq_true, Bool.or_eq_true]
    refine ⟨by simpa [bne_iff_ne] using hcne, ?_⟩
    rcases hmatch with rfl | hinc
    · exact Or.inl (by simp)
    · exact Or.inr hinc
  have hnative : txNativeMatch pd.reference tx = true := by
    unfold txNativeMatch
    rw [Bool.or_eq_true]
    rcases hc with ⟨db, hdb, hdbt⟩ | ⟨m, hm, db, hdb, hdbt⟩
    · exact Or.inl (by simp [inMsgTextMatch, hdb, hdbt, htext])
    · refine Or.inr (List.any_eq_true.mpr ⟨m, hm, ?_⟩)
      simp [outMsgTextMatch, hdb, hdbt, htext]
  have hpm : paymentMatches cfg txs pd = true := by
    unfold paymentMatches
    rw [Bool.or_eq_true]
    exact Or.inl (List.any_eq_true.mpr ⟨tx, htx, hnative⟩)
  refine ⟨hpm, ?_⟩
  unfold findPayment
  rw [Option.isSome_iff_exists]
  obtain ⟨x, hx⟩ := List.find?_isSome.mpr ⟨pd, List.mem_reverse.mpr hmem, hpm⟩
    |> Option.isSome_iff_exists.mp
  exact ⟨x, hx⟩

/-- Witness for C2: a concrete transaction with inbound comment
`"pay russian-bot-7-1 now"` containing the concrete intent's reference. -/
theorem C2_witness :
    let pd0 : PaymentData :=
      { reference := "russian-bot-7-1", amount := 400000000,
        usdtAmount := 1000000, timestamp := 1 }
    let tx0 : Transaction :=
      { in_msg := some { text := some "pay russian-bot-7-1 now",
                         jetton_transfer := none },
        out_msgs := [] }
    paymentMatches defaultConfig [tx0] pd0 = true ∧
    (findPayment defaultConfig [tx0] [pd0]).isSome = true :=
  C2_native_comment_match defaultConfig _ _ _ (by simp)
    ⟨"7", 1, by decide⟩
    { in_msg := some { text := some "pay russian-bot-7-1 now",
                       jetton_transfer := none },
      out_msgs := [] }
    (by simp) "pay russian-bot-7-1 now"
    (Or.inl ⟨{ text := some "pay russian-bot-7-1 now",
               jetton_transfer := none }, rfl, rfl⟩)
    (Or.inr (by decide))

/-- Exhaustion without a match: when every attempt's fetch succeeds and none
of its batches matches, the loop ends in `NotFound`. -/
theorem attemptLoop_all_unmatched (cfg : Config) (payments : List PaymentData) :
    ∀ fs, (∀ r ∈ fs, ∃ txs, r = some txs ∧
        findPayment cfg txs payments = none) →
      (attemptLoop cfg payments fs).2 = .NotFound := by
  intro fs
  induction fs with
  | nil => intro _; rfl
  | cons r rest ih =>
    intro h
    obtain ⟨txs, rfl, hf⟩ := h r (List.mem_cons_self r rest)
    cases rest with
    | nil => simp [attemptLoop, hf]
    | cons r2 rest2 =>
      rw [attemptLoop_cons_unmatched (by simp) hf]
      exact ih (fun x hx => h x (List.mem_cons_of_mem _ hx))

theorem handleCheckPayment_notFound {cfg : Config} {userId : String}
    {fetches : List (Option (List Transaction))} {dbF : Bool} {st : BotState}
    {payments : List PaymentData}
    (hguard : setHas st.checkingPayments (checkKeyOf userId) = false)
    (hpend : mapGet st.pendingPayments userId = some payments)
    (hne : payments.isEmpty = false)
    (hm : (attemptLoop cfg payments fetches).2 = .NotFound) :
    handleCheckPayment cfg userId fetches dbF st =
      (preEvents cfg ++ (attemptLoop cfg payments fetches).1 ++
          [Event.sent .notFound],
        ⟨st.pendingPayments, releasedGuard st userId⟩) := by
  simp [handleCheckPayment, hguard, hpend, hne, hm, releasedGuard, preEvents]

theorem handleCheckPayment_unavailable {cfg : Config} {userId : String}
    {fetches : List (Option (List Transaction))} {dbF : Bool} {st : BotState}
    {payments : List PaymentData}
    (hguard : setHas st.checkingPayments (checkKeyOf userId) = false)
    (hpend : mapGet st.pendingPayments userId = some payments)
    (hne : payments.isEmpty = false)
    (hm : (attemptLoop cfg payments fetches).2 = .ServiceUnavailable) :
    handleCheckPayment cfg userId fetches dbF st =
      (preEvents cfg ++ (attemptLoop cfg payments fetches).1,
        ⟨st.pendingPayments, releasedGuard st userId⟩) := by
  simp [handleCheckPayment, hguard, hpend, hne, hm, releasedGuard, preEvents]

theorem handleCheckPayment_matched {cfg : Config} {userId : String}
    {fetches : List (Option (List Transaction))} {st : BotState}
    {payments : List PaymentData} {pd : PaymentData}
    (hguard : setHas st.checkingPayments (checkKeyOf userId) = false)
    (hpend : mapGet st.pendingPayments userId = some payments)
    (hne : payments.isEmpty = false)
    (hm : (attemptLoop cfg payments fetches).2 = .Matched pd) :
    handleCheckPayment cfg userId fetches false st =
      (preEvents cfg ++ (attemptLoop cfg payments fetches).1 ++
          [Event.createSub userId pd.reference cfg.SUBSCRIPTION_DAYS,
            Event.clearIntents userId, Event.sent .success,
            Event.sent .lesson],
        ⟨mapDelete st.pendingPayments userId, releasedGuard st userId⟩) := by
  simp [handleCheckPayment, hguard, hpend, hne, hm, releasedGuard, preEvents]

theorem handleCheckPayment_matched_dbFails {cfg : Config} {userId : String}
    {fetches : List (Option (List Transaction))} {st : BotState}
    {payments : List PaymentData} {pd : PaymentData}
    (hguard : setHas st.checkingPayments (checkKeyOf userId) = false)
    (hpend : mapGet st.pendingPayments userId = some payments)
    (hne : payments.isEmpty = false)
    (hm : (attemptLoop cfg payments fetches).2 = .Matched pd) :
    handleCheckPayment cfg userId fetches true st =
      (preEvents cfg ++ (attemptLoop cfg payments fetches).1 ++
          [Event.sent .errorGeneric],
        ⟨st.pendingPayments, releasedGuard st userId⟩) := by
  simp [handleCheckPayment, hguard, hpend, hne, hm, releasedGuard, preEvents]

theorem handleCheckPayment_noPending {cfg : Config} {userId : String}
    {fetches : List (Option (List Transaction))} {dbF : Bool} {st : BotState}
    (hguard : setHas st.checkingPayments (checkKeyOf userId) = false)
    (hpend : mapGet st.pendingPayments userId = none ∨
      mapGet st.pendingPayments userId = some []) :
    handleCheckPayment cfg userId fetches dbF st =
      ([Event.sent .noPending],
        ⟨st.pendingPayments, releasedGuard st userId⟩) := by
  rcases hpend with h | h <;>
    simp [handleCheckPayment, hguard, h, releasedGuard]

/-- C3: the retry controller's error handling.  First conjunct: if every
attempt before the last leaves the loop running (a failed fetch, or a
successful fetch whose batch matches nothing) and the last attempt's fetch
fails, the run ends in the distinct `ServiceUnavailable` outcome.  Second
conjunct: a failed fetch on a non-last attempt adds exactly one
`RETRY_DELAY_MS` wait and continues with the remaining attempts.  Third
conjunct: fetch failures on earlier attempts followed by a successful but
unmatched last attempt end in `NotFound`, not `ServiceUnavailable`. -/
theorem C3_retry_error_handling (cfg : Config) (payments : List PaymentData) :
    (∀ fs : List (Option (List Transaction)),
        (∀ r ∈ fs, ∀ txs, r = some txs →
          findPayment cfg txs payments = none) →
        (attemptLoop cfg payments (fs ++ [none])).2 = .ServiceUnavailable) ∧
    (∀ rest : List (Option (List Transaction)), rest ≠ [] →
        attemptLoop cfg payments (none :: rest) =
          ((Event.wait cfg.RETRY_DELAY_MS) :: (attemptLoop cfg payments rest).1,
            (attemptLoop cfg payments rest).2)) ∧
    (∀ (fs : List (Option (List Transaction))) (txs : List Transaction),
        (∀ r ∈ fs, r = none) → findPayment cfg txs payments = none →
        (attemptLoop cfg payments (fs ++ [some txs])).2 = .NotFound) := by
  refine ⟨?_, fun rest h => attemptLoop_cons_none h, ?_⟩
  · intro fs
    induction fs with
    | nil => intro _; rfl
    | cons r rest ih =>
      intro h
      rw [List.cons_append]
      cases r with
      | none =>
        rw [attemptLoop_cons_none (by simp)]
        exact ih fun x hx txs heq => h x (List.mem_cons_of_mem _ hx) txs heq
      | some txs =>
        have hf : findPayment cfg txs payments = none :=
          h (some txs) (List.mem_cons_self _ _) txs rfl
        rw [attemptLoop_cons_unmatched (by simp) hf]
        exact ih fun x hx t heq => h x (List.mem_cons_of_mem _ hx) t heq
  · intro fs txs
    induction fs with
    | nil =>
      intro _ hf
      simp [attemptLoop, hf]
    | cons r rest ih =>
      intro h hf
      have : r = none := h r (List.mem_cons_self _ _)
      subst this
      rw [List.cons_append, attemptLoop_cons_none (by simp)]
      exact ih (fun x hx => h x (List.mem_cons_of_mem _ hx)) hf

/-- Witness for C3 at concrete inputs: one unmatched successful fetch then a
failed last fetch gives `ServiceUnavailable`; a failed first fetch waits and
continues; two failed fetches followed by a successful unmatched last fetch
give `NotFound`. -/
theorem C3_witness :
    let pd0 : PaymentData :=
      { reference := "russian-bot-7-1", amount := 400000000,
        usdtAmount := 1000000, timestamp := 1 }
    (attemptLoop defaultConfig [pd0]
        ([some []] ++ [none])).2 = .ServiceUnavailable ∧
    attemptLoop defaultConfig [pd0] (none :: [some []]) =
      ((Event.wait defaultConfig.RETRY_DELAY_MS) ::
          (attemptLoop defaultConfig [pd0] [some []]).1,
        (attemptLoop defaultConfig [pd0] [some []]).2) ∧
    (attemptLoop defaultConfig [pd0]
        ([none, none] ++ [some []])).2 = .NotFound := by
  refine ⟨(C3_retry_error_handling defaultConfig _).1 [some []] ?_,
    (C3_retry_error_handling defaultConfig _).2.1 [some []] (by simp),
    (C3_retry_error_handling defaultConfig _).2.2 [none, none] [] ?_ (by decide)⟩
  · intro r hr txs heq
    rw [List.mem_singleton] at hr
    subst hr
    injection heq with h
    subst h
    decide
  · intro r hr
    rcases List.mem_cons.mp hr with rfl | hr2
    · rfl
    · rw [List.mem_singleton] at hr2
      exact hr2

/-- C4: on a `Matched(pd)` run (without an injected database failure), the
event trace ends with the subscription-creation request for
`(userId, pd.reference, SUBSCRIPTION_DAYS)`, then the removal of all of the
user's pending intents, then the success message and exactly one onboarding
(first-lesson) delivery; the user's registry entry is gone afterwards no
matter what the pending list contained (`payments` is arbitrary); and the
default configured duration is 30 days. -/
theorem C4_activation (cfg : Config) (userId : String)
    (fetches : List (Option (List Transaction))) (st : BotState)
    (payments : List PaymentData) (pd : PaymentData)
    (hguard : setHas st.checkingPayments (checkKeyOf userId) = false)
    (hpend : mapGet st.pendingPayments userId = some payments)
    (hne : payments.isEmpty = false)
    (hm : (attemptLoop cfg payments fetches).2 = .Matched pd) :
    (handleCheckPayment cfg userId fetches false st).1 =
      preEvents cfg ++ (attemptLoop cfg payments fetches).1 ++
        [Event.createSub userId pd.reference cfg.SUBSCRIPTION_DAYS,
          Event.clearIntents userId, Event.sent .success,
          Event.sent .lesson] ∧
    mapGet (handleCheckPayment cfg userId fetches false st).2.pendingPayments
      userId = none ∧
    ((handleCheckPayment cfg userId fetches false st).1.filter
      isLessonDelivery).length = 1 ∧
    defaultConfig.SUBSCRIPTION_DAYS = 30 := by
  rw [handleCheckPayment_matched hguard hpend hne hm]
  refine ⟨rfl, mapGet_mapDelete_self _ _, ?_, rfl⟩
  simp [List.filter_append, attemptLoop_no_lesson, preEvents, isLessonDelivery]

/-- Witness for C4: a one-attempt run whose fetched batch settles the
concrete intent by inbound comment; the stored intent with an unrelated
reference is cleared as well. -/
theorem C4_witness :
    (handleCheckPayment defaultConfig "7" [some [txFix]] false stFix).1 =
      preEvents defaultConfig ++
        (attemptLoop defaultConfig [pdOldFix, pdFix] [some [txFix]]).1 ++
        [Event.createSub "7" pdFix.reference defaultConfig.SUBSCRIPTION_DAYS,
          Event.clearIntents "7", Event.sent .success, Event.sent .lesson] ∧
    mapGet (handleCheckPayment defaultConfig "7" [some [txFix]] false
      stFix).2.pendingPayments "7" = none ∧
    ((handleCheckPayment defaultConfig "7" [some [txFix]] false stFix).1.filter
      isLessonDelivery).length = 1 ∧
    defaultConfig.SUBSCRIPTION_DAYS = 30 :=
  C4_activation defaultConfig "7" [some [txFix]] stFix [pdOldFix, pdFix] pdFix
    (by decide) (by decide) (by decide) (by decide)

/-- C5: if every one of the `MAX_ATTEMPTS` fetches succeeds and no pending
intent matches any fetched batch, the run ends in `NotFound` and the whole
pending-payments registry after the run equals the registry before it; a run
ending in `ServiceUnavailable` likewise leaves the registry untouched. -/
theorem C5_no_mutation_on_failure (cfg : Config) (userId : String)
    (fetches : List (Option (List Transaction))) (dbF : Bool) (st : BotState)
    (payments : List PaymentData)
    (hguard : setHas st.checkingPayments (checkKeyOf userId) = false)
    (hpend : mapGet st.pendingPayments userId = some payments)
    (hne : payments.isEmpty = false) :
    ((fetches.length = cfg.MAX_ATTEMPTS ∧
        ∀ r ∈ fetches, ∃ txs, r = some txs ∧
          findPayment cfg txs payments = none) →
      (attemptLoop cfg payments fetches).2 = .NotFound ∧
      (handleCheckPayment cfg userId fetches dbF st).2.pendingPayments =
        st.pendingPayments) ∧
    ((attemptLoop cfg payments fetches).2 = .ServiceUnavailable →
      (handleCheckPayment cfg userId fetches dbF st).2.pendingPayments =
        st.pendingPayments) := by
  constructor
  · rintro ⟨-, hall⟩
    have hnf := attemptLoop_all_unmatched cfg payments fetches hall
    refine ⟨hnf, ?_⟩
    rw [handleCheckPayment_notFound hguard hpend hne hnf]
  · intro hsu
    rw [handleCheckPayment_unavailable hguard hpend hne hsu]

/-- Witness for C5: three successful fetches of empty batches match nothing
and leave the fixture registry exactly as it was. -/
theorem C5_witness :
    (attemptLoop defaultConfig [pdOldFix, pdFix]
        [some [], some [], some []]).2 = .NotFound ∧
    (handleCheckPayment defaultConfig "7" [some [], some [], some []] false
      stFix).2.pendingPayments = stFix.pendingPayments :=
  (C5_no_mutation_on_failure defaultConfig "7" [some [], some [], some []]
      false stFix [pdOldFix, pdFix] (by decide) (by decide) (by decide)).1
    ⟨by decide, by
      intro r hr
      rcases List.mem_cons.mp hr with rfl | hr2
      · exact ⟨[], rfl, by decide⟩
      rcases List.mem_cons.mp hr2 with rfl | hr3
      · exact ⟨[], rfl, by decide⟩
      rw [List.mem_singleton] at hr3
      subst hr3
      exact ⟨[], rfl, by decide⟩⟩

/-- C6: a check invocation arriving while the same user's guard key is
already in the in-flight set is answered with the distinct
"already checking" message only and changes nothing: the returned state is
the input state, so the guard entry is neither acquired nor released by the
second caller and the fetch/match loop never runs (the trace holds no other
event). -/
theorem C6_duplicate_check_short_circuit (cfg : Config) (userId : String)
    (fetches : List (Option (List Transaction))) (dbF : Bool) (st : BotState)
    (h : setHas st.checkingPayments (checkKeyOf userId) = true) :
    handleCheckPayment cfg userId fetches dbF st =
      ([Event.sent .alreadyChecking], st) := by
  simp [handleCheckPayment, h]

/-- Witness for C6: the fixture state with user `"7"`'s check already in
flight. -/
theorem C6_witness :
    handleCheckPayment defaultConfig "7" [some [txFix]] false
        { pendingPayments := [("7", [pdFix])],
          checkingPayments := ["checking_7"] } =
      ([Event.sent .alreadyChecking],
        { pendingPayments := [("7", [pdFix])],
          checkingPayments := ["checking_7"] }) :=
  C6_duplicate_check_short_circuit defaultConfig "7" [some [txFix]] false
    { pendingPayments := [("7", [pdFix])],
      checkingPayments := ["checking_7"] } (by decide)

/-- C7: every verification run that acquires the guard — whatever its
termination path: matched (with or without an injected database failure),
not-found, service-unavailable, or the empty-registry rejection — ends with
the in-flight set exactly as before the run, in particular without the
user's guard key, so a future check for that user is not blocked. -/
theorem C7_guard_released_on_every_path (cfg : Config) (userId : String)
    (fetches : List (Option (List Transaction))) (dbF : Bool) (st : BotState)
    (hguard : setHas st.checkingPayments (checkKeyOf userId) = false) :
    (handleCheckPayment cfg userId fetches dbF st).2.checkingPayments =
      st.checkingPayments ∧
    setHas (handleCheckPayment cfg userId fetches dbF st).2.checkingPayments
      (checkKeyOf userId) = false := by
  have hrel : releasedGuard st userId = st.checkingPayments := by
    unfold releasedGuard
    exact setDelete_setAdd hguard
  suffices h2 : (handleCheckPayment cfg userId fetches dbF
      st).2.checkingPayments = st.checkingPayments by
    refine ⟨h2, ?_⟩
    rw [h2]
    exact hguard
  rcases hp : mapGet st.pendingPayments userId with _ | payments
  · rw [handleCheckPayment_noPending hguard (Or.inl hp)]
    exact hrel
  · cases hne : payments.isEmpty with
    | true =>
      have : payments = [] := by simpa using hne
      subst this
      rw [handleCheckPayment_noPending hguard (Or.inr hp)]
      exact hrel
    | false =>
      cases ho : (attemptLoop cfg payments fetches).2 with
      | Matched pd =>
        cases dbF with
        | false =>
          rw [handleCheckPayment_matched hguard hp hne ho]
          exact hrel
        | true =>
          rw [handleCheckPayment_matched_dbFails hguard hp hne ho]
          exact hrel
      | NotFound =>
        rw [handleCheckPayment_notFound hguard hp hne ho]
        exact hrel
      | ServiceUnavailable =>
        rw [handleCheckPayment_unavailable hguard hp hne ho]
        exact hrel

/-- Witness for C7 on a service-unavailable run (all fetches fail) with an
injected database failure flag set, starting from the fixture state. -/
theorem C7_witness :
    (handleCheckPayment defaultConfig "7" [none, none, none] true
        stFix).2.checkingPayments = stFix.checkingPayments ∧
    setHas (handleCheckPayment defaultConfig "7" [none, none, none] true
        stFix).2.checkingPayments (checkKeyOf "7") = false :=
  C7_guard_released_on_every_path defaultConfig "7" [none, none, none] true
    stFix (by decide)

/-- C9: a run that passes the guard and finds a nonempty pending list emits
exactly one outcome notification — the success, not-found,
service-unavailable, or generic-error message — whatever the outcome and
whether or not a database failure is injected. -/
theorem C9_exactly_one_outcome_notification (cfg : Config) (userId : String)
    (fetches : List (Option (List Transaction))) (dbF : Bool) (st : BotState)
    (payments : List PaymentData)
    (hguard : setHas st.checkingPayments (checkKeyOf userId) = false)
    (hpend : mapGet st.pendingPayments userId = some payments)
    (hne : payments.isEmpty = false) :
    ((handleCheckPayment cfg userId fetches dbF st).1.filter
      isOutcomeNotification).length = 1 := by
  have hfilter := attemptLoop_filter_outcome cfg payments fetches
  cases ho : (attemptLoop cfg payments fetches).2 with
  | Matched pd =>
    rw [ho] at hfilter
    cases dbF with
    | false =>
      rw [handleCheckPayment_matched hguard hpend hne ho]
      simp [List.filter_append, preEvents, isOutcomeNotification, hfilter]
    | true =>
      rw [handleCheckPayment_matched_dbFails hguard hpend hne ho]
      simp [List.filter_append, preEvents, isOutcomeNotification, hfilter]
  | NotFound =>
    rw [ho] at hfilter
    rw [handleCheckPayment_notFound hguard hpend hne ho]
    simp [List.filter_append, preEvents, isOutcomeNotification, hfilter]
  | ServiceUnavailable =>
    rw [ho] at hfilter
    rw [handleCheckPayment_unavailable hguard hpend hne ho]
    simp [List.filter_append, preEvents, isOutcomeNotification, hfilter]

/-- Witness for C9 on a concrete matched run from the fixture state. -/
theorem C9_witness :
    ((handleCheckPayment defaultConfig "7" [some [txFix]] false stFix).1.filter
      isOutcomeNotification).length = 1 :=
  C9_exactly_one_outcome_notification defaultConfig "7" [some [txFix]] false
    stFix [pdOldFix, pdFix] (by decide) (by decide) (by decide)

/-- Iterating the capacity-3 append keeps exactly the last three creations,
in order. -/
theorem foldl_pushRecent (pds : List PaymentData) :
    ∀ l : List PaymentData, l.length ≤ 3 →
      List.foldl pushRecent l pds =
        (l ++ pds).drop ((l ++ pds).length - 3) := by
  induction pds with
  | nil =>
    intro l hl
    simp only [List.foldl_nil, List.append_nil]
    have h0 : l.length - 3 = 0 := by omega
    rw [h0, List.drop_zero]
  | cons pd rest ih =>
    intro l hl
    rw [List.foldl_cons]
    have hlen : (pushRecent l pd).length ≤ 3 := by
      unfold pushRecent
      simp only [List.length_drop, List.length_append, List.length_cons,
        List.length_nil]
      omega
    rw [ih (pushRecent l pd) hlen]
    have hcomp := drop_sub3_append (l ++ [pd]) rest
    unfold pushRecent
    rw [hcomp, List.append_assoc, List.singleton_append]

/-- Folding registry appends over a user's entry tracks the pure
capacity-3 fold. -/
theorem foldl_record_get (userId : String) (pds : List PaymentData) :
    ∀ (st : BotState) (l : List PaymentData),
      mapGet st.pendingPayments userId = some l →
      mapGet ((pds.foldl (fun s pd => recordNewPayment s userId pd)
          st)).pendingPayments userId =
        some (List.foldl pushRecent l pds) := by
  induction pds with
  | nil =>
    intro st l h
    simpa using h
  | cons pd rest ih =>
    intro st l h
    rw [List.foldl_cons, List.foldl_cons]
    apply ih
    show mapGet (mapSet st.pendingPayments userId
        (pushRecent ((mapGet st.pendingPayments userId).getD []) pd))
        userId = some (pushRecent l pd)
    rw [h]
    simp only [Option.getD_some]
    exact mapGet_mapSet_self _ _ _

/-- C8: starting from a user with no pending intents, any nonempty sequence
of intent creations leaves that user's registry entry holding exactly the
newest at-most-three intents in creation order (so at most 3 are ever
held), and creating a 4th evicts the oldest, retaining exactly the newest
three. -/
theorem C8_registry_capacity (st : BotState) (userId : String)
    (pd1 : PaymentData) (pds : List PaymentData)
    (h0 : mapGet st.pendingPayments userId = none) :
    mapGet (((pd1 :: pds).foldl
        (fun s pd => recordNewPayment s userId pd) st)).pendingPayments
        userId =
      some ((pd1 :: pds).drop ((pd1 :: pds).length - 3)) ∧
    ((pd1 :: pds).drop ((pd1 :: pds).length - 3)).length ≤ 3 ∧
    ∀ a b c d : PaymentData, List.foldl pushRecent [] [a, b, c, d] =
      [b, c, d] := by
  refine ⟨?_, ?_, fun a b c d => rfl⟩
  · rw [List.foldl_cons]
    have step1 : mapGet (recordNewPayment st userId pd1).pendingPayments
        userId = some (pushRecent [] pd1) := by
      show mapGet (mapSet st.pendingPayments userId
          (pushRecent ((mapGet st.pendingPayments userId).getD []) pd1))
          userId = some (pushRecent [] pd1)
      rw [h0]
      simp only [Option.getD_none]
      exact mapGet_mapSet_self _ _ _
    rw [foldl_record_get userId pds (recordNewPayment st userId pd1)
      (pushRecent [] pd1) step1]
    have hone : pushRecent [] pd1 = [pd1] := rfl
    rw [hone, foldl_pushRecent pds [pd1] (by simp), List.singleton_append]
  · simp only [List.length_drop, List.length_cons]
    omega

/-- Witness for C8: creating four concrete intents in a row retains the
newest three. -/
theorem C8_witness :
    mapGet (([pdOldFix, pdFix, pdOldFix, pdFix].foldl
        (fun s pd => recordNewPayment s "7" pd)
        { pendingPayments := [], checkingPayments := [] })).pendingPayments
        "7" =
      some ([pdOldFix, pdFix, pdOldFix, pdFix].drop
        ([pdOldFix, pdFix, pdOldFix, pdFix].length - 3)) ∧
    ([pdOldFix, pdFix, pdOldFix, pdFix].drop
      ([pdOldFix, pdFix, pdOldFix, pdFix].length - 3)).length ≤ 3 ∧
    ∀ a b c d : PaymentData, List.foldl pushRecent [] [a, b, c, d] =
      [b, c, d] :=
  C8_registry_capacity { pendingPayments := [], checkingPayments := [] }
    "7" pdOldFix [pdFix, pdOldFix, pdFix] (by decide)

example :
    inMsgTextMatch "r1"
      { in_msg := some { text := some "pay r1 now", jetton_transfer := none },
        out_msgs := [] } = true := by decide

example :
    inMsgTextMatch "r1"
      { in_msg := some { text := some "", jetton_transfer := none },
        out_msgs := [] } = false := by decide

example :
    jettonTransferMatch defaultConfig "r1"
      { source := true, destination := true,
        decoded_body := some
          { text := none,
            jetton_transfer := some
              { jetton_master_address := "EQCxE6mUtQJKFnGfaROTKOt1lZbDiiX1kCixRv7Nw2Id_sDs",
                amount := some 1000000,
                forward_ton_amount := 1,
                forward_payload := some "r1" } } } = true := by decide

example :
    jettonTransferMatch defaultConfig "r1"
      { source := true, destination := true,
        decoded_body := some
          { text := none,
            jetton_transfer := some
              { jetton_master_address := "EQCxE6mUtQJKFnGfaROTKOt1lZbDiiX1kCixRv7Nw2Id_sDs",
                amount := some 1000000,
                forward_ton_amount := 0,
                forward_payload := some "r1" } } } = false := by decide
